import Mathlib

/-!
Verification of the markdown-to-LaTeX document compiler in `endoy.py`.

The embedding translates the parser (`parse_markdown`), the two generators
(`generate_latex_script`, `generate_latex_skills`) and the escaping function
(`escape_latex`) into executable Lean definitions.  Strings are manipulated
through their underlying `List Char`, with small structural helpers that
mirror the Python string primitives (`startswith`, `rstrip`, `strip`,
`split('\n')`, `replace`).  In string literals, `\x7b` and `\x7d` denote the
literal brace characters `\x7b` / `\x7d` of the generated LaTeX, and `\x27`
denotes an apostrophe.
-/

namespace Endoy

/-! ## Character-list helpers mirroring Python string primitives -/

/-- Prefix test on character lists: `listIsPre p l` is `l.startswith(p)`. -/
def listIsPre : List Char → List Char → Bool
  | [], _ => true
  | _ :: _, [] => false
  | a :: as, b :: bs => a = b && listIsPre as bs

/-- Substring test: `listHasSub p l` is `p in l` for Python strings. -/
def listHasSub (pat : List Char) : List Char → Bool
  | [] => listIsPre pat []
  | c :: cs => listIsPre pat (c :: cs) || listHasSub pat cs

/-- `strStarts p s` is Python's `s.startswith(p)`. -/
def strStarts (p s : String) : Bool := listIsPre p.data s.data

/-- `strHasSub p s` is Python's `p in s`. -/
def strHasSub (p s : String) : Bool := listHasSub p.data s.data

/-- The default whitespace set of Python's `str.strip` / `str.rstrip`
(ASCII part: space, tab, newline, carriage return, vertical tab, form feed). -/
def pyWhitespace (c : Char) : Bool :=
  c = ' ' || c = '\t' || c = '\n' || c = '\r' || c = '\x0b' || c = '\x0c'

/-- Remove trailing characters satisfying `p` (Python `rstrip` with set `p`). -/
def rstripChars (p : Char → Bool) (l : List Char) : List Char :=
  (l.reverse.dropWhile p).reverse

/-- Python `s.rstrip()`. -/
def pyRstrip (s : String) : String := ⟨rstripChars pyWhitespace s.data⟩

/-- Python `s.strip()`. -/
def pyStrip (s : String) : String :=
  ⟨rstripChars pyWhitespace (s.data.dropWhile pyWhitespace)⟩

/-- Python `s.rstrip('*')`: remove all trailing asterisks. -/
def pyRstripStar (s : String) : String :=
  ⟨rstripChars (fun c => c = '*') s.data⟩

/-- Python `s.endswith('*')`. -/
def pyEndsWithStar (s : String) : Bool :=
  listIsPre ['*'] s.data.reverse

/-- Python `s[n:]`. -/
def strDrop (n : Nat) (s : String) : String := ⟨s.data.drop n⟩

/-- Python `s.split('\n')` (on the character list). -/
def splitLinesL : List Char → List (List Char)
  | [] => [[]]
  | c :: cs =>
    if c = '\n' then [] :: splitLinesL cs
    else
      match splitLinesL cs with
      | [] => [[c]]
      | l :: ls => (c :: l) :: ls

/-- Python `'\n'.join(lines)`. -/
def joinNL : List String → String
  | [] => ""
  | [s] => s
  | s :: rest => s ++ "\n" ++ joinNL rest

/-- Python `s.replace(pat, rep)`: left-to-right, non-overlapping, a single
pass over the original string (the replacement text is not rescanned within
the same call).  The recursion is driven by explicit fuel so that the kernel
can evaluate it; every step consumes at least one character, so fuel equal
to the length of the scanned list is always enough.  All patterns used
below are nonempty; the emptiness guard only serves to keep every step
consuming fuel meaningfully. -/
def replaceCore (pat rep : List Char) : Nat → List Char → List Char
  | _, [] => []
  | 0, l => l
  | fuel + 1, c :: cs =>
    if pat.length ≠ 0 && listIsPre pat (c :: cs) then
      rep ++ replaceCore pat rep fuel (cs.drop (pat.length - 1))
    else
      c :: replaceCore pat rep fuel cs

/-- Python `s.replace(pat, rep)` on the character list. -/
def replaceL (pat rep l : List Char) : List Char := replaceCore pat rep l.length l

/-- Python `s.replace(pat, rep)` on `String`. -/
def strReplace (s pat rep : String) : String := ⟨replaceL pat.data rep.data s.data⟩

/-! ## Decimal rendering of the counters

Python renders the integer counters with `f'...{n}...'`, i.e. in decimal.
`natStr` is that decimal rendering: base-10 digits (computed with explicit
fuel so that the kernel can evaluate it), most significant first. -/

/-- Little-endian base-10 digits of `n`; `fuel ≥ n` makes this total.
`decDigitsCore fuel 0 = []`. -/
def decDigitsCore : Nat → Nat → List Nat
  | 0, _ => []
  | _ + 1, 0 => []
  | fuel + 1, n + 1 => ((n + 1) % 10) :: decDigitsCore fuel ((n + 1) / 10)

/-- Little-endian base-10 digits of `n` (empty for `0`). -/
def decDigits (n : Nat) : List Nat := decDigitsCore n n

/-- The ASCII character of a decimal digit. -/
def dchar : Nat → Char
  | 0 => '0' | 1 => '1' | 2 => '2' | 3 => '3' | 4 => '4'
  | 5 => '5' | 6 => '6' | 7 => '7' | 8 => '8' | 9 => '9'
  | _ + 10 => '0'

/-- Decimal rendering of a natural number, as Python's string formatting
of an `int` produces it. -/
def natStr (n : Nat) : String :=
  if n = 0 then "0" else ⟨(decDigits n).reverse.map dchar⟩

/-! ## Data model (`parse_markdown` output)

`parse_markdown` builds nested dicts; every subsection dict carries keys
`header` and `items`, every section dict carries keys `header`,
`subsections` and `items`, and the document dict carries `title` and
`sections`.  Since all keys are always present on parsed output, the model
uses plain fields. -/

structure Subsectn where
  header : String
  items : List String
deriving DecidableEq, Repr

structure Sectn where
  header : String
  subsections : List Subsectn
  items : List String
deriving DecidableEq, Repr

structure Document where
  title : String
  sections : List Sectn
deriving DecidableEq, Repr

/-! ## Parser (`parse_markdown`, endoy.py lines 19-108) -/

/-- The parser's loop state: the document built so far plus the currently
open section and subsection (`None` in Python ↦ `none`). -/
structure ParseState where
  title : String
  sections : List Sectn
  curSection : Option Sectn
  curSubsection : Option Subsectn
deriving DecidableEq, Repr

def initState : ParseState := ⟨"", [], none, none⟩

/-- One iteration of the parser's `for line in lines` loop.  The loop body
first rebinds `line = line.rstrip()`; here `pyRstrip rawLine` is inlined at
each use of that binding. -/
def parseStep (st : ParseState) (rawLine : String) : ParseState :=
  if strStarts "# " (pyRstrip rawLine) then
    { st with title := pyStrip (strDrop 2 (pyRstrip rawLine)) }
  else if strStarts "## " (pyRstrip rawLine) then
    let sections' :=
      match st.curSection, st.curSubsection with
      | some cs, some sub =>
          st.sections ++ [{ cs with subsections := cs.subsections ++ [sub] }]
      | some cs, none => st.sections ++ [cs]
      | none, _ => st.sections
    { title := st.title
      sections := sections'
      curSection := some ⟨pyStrip (strDrop 3 (pyRstrip rawLine)), [], []⟩
      curSubsection := none }
  else if strStarts "### " (pyRstrip rawLine) then
    match st.curSection with
    | none => st
    | some cs =>
      let cs' :=
        match st.curSubsection with
        | some sub => { cs with subsections := cs.subsections ++ [sub] }
        | none => cs
      { st with
        curSection := some cs'
        curSubsection := some ⟨pyStrip (strDrop 4 (pyRstrip rawLine)), []⟩ }
  else if strStarts "- " (pyRstrip rawLine) then
    let itemText := pyStrip (strDrop 2 (pyRstrip rawLine))
    match st.curSubsection with
    | some sub =>
        { st with curSubsection := some { sub with items := sub.items ++ [itemText] } }
    | none =>
      match st.curSection with
      | some cs =>
          { st with curSection := some { cs with items := cs.items ++ [itemText] } }
      | none => st
  else st

/-- The flush of the still-open subsection and section after the loop. -/
def finalizeParse (st : ParseState) : Document :=
  let sections₁ :=
    match st.curSubsection, st.curSection with
    | some sub, some cs =>
        st.sections ++ [{ cs with subsections := cs.subsections ++ [sub] }]
    | _, none => st.sections
    | none, some cs => st.sections ++ [cs]
  ⟨st.title, sections₁⟩

/-- `parse_markdown`: strip the content, split into lines, run the line
loop, flush what is still open. -/
def parse_markdown (content : String) : Document :=
  let lines := (splitLinesL (pyStrip content).data).map fun l => (⟨l⟩ : String)
  finalizeParse (lines.foldl parseStep initState)

/-! ## Escaping (`escape_latex`, endoy.py lines 345-372)

The replacements run in the insertion order of the Python dict literal,
each one a full `str.replace` pass over the result of the previous one;
the backslash replacement runs last. -/

def escape_latex (text : String) : String :=
  let r := strReplace text "&" "\\&"
  let r := strReplace r "%" "\\%"
  let r := strReplace r "$" "\\$"
  let r := strReplace r "#" "\\#"
  let r := strReplace r "_" "\\_"
  let r := strReplace r "\x7b" "\\\x7b"
  let r := strReplace r "\x7d" "\\\x7d"
  let r := strReplace r "~" "\\textasciitilde\x7b\x7d"
  let r := strReplace r "^" "\\textasciicircum\x7b\x7d"
  strReplace r "\\" "\\textbackslash\x7b\x7d"

/-! ## Script generator (`generate_latex_script`, endoy.py lines 155-326) -/

/-- Python `'Mentor' if role == 'Mentee' else 'Mentee'`. -/
def otherRole (role : String) : String :=
  if role = "Mentee" then "Mentor" else "Mentee"

/-- The fixed prefix of every emitted `\TextField` line. -/
def fieldLinePre : String := "\\noindent\\TextField[name="

/-- The fixed suffix of every emitted `\TextField` line. -/
def fieldLineSuf : String :=
  ",multiline=true,width=\\textwidth,height=2.5cm,bordercolor=\x7b0 0 0\x7d,backgroundcolor=\x7b0.95 0.95 0.95\x7d]\x7b\x7d"

/-- A `\TextField` line bearing the interactive-field name `name`. -/
def textFieldLine (name : String) : String := fieldLinePre ++ name ++ fieldLineSuf

/-- The field identifier for counter value `c`: Python `f'field{c}'`. -/
def fieldTag (c : Nat) : String := "field" ++ natStr c

/-- Lines for one item of an action subsection (header ending in `*`):
italic text, trailing asterisks of the item stripped, no field. -/
def actionItemLines (item : String) : List String :=
  ["\\noindent\\textit\x7b" ++ escape_latex (pyStrip (pyRstripStar item)) ++ "\x7d",
   "",
   "\\vspace\x7b0.3cm\x7d",
   ""]

/-- Lines for one item of a `Both` subsection at counter `c`; returns the
updated counter. -/
def bothItemLines (role item : String) (c : Nat) : List String × Nat :=
  if pyEndsWithStar item then
    (["\\noindent\\textit\x7b" ++ escape_latex (pyStrip (pyRstripStar item)) ++ "\x7d",
      "",
      "\\vspace\x7b0.3cm\x7d",
      ""], c)
  else
    (["\\needspace\x7b4cm\x7d",
      "\\noindent " ++ escape_latex (pyStrip (pyRstripStar item)),
      "",
      "\\vspace\x7b0.3em\x7d",
      textFieldLine (fieldTag c),
      "",
      "\\vspace\x7b0.2cm\x7d",
      "",
      "\\needspace\x7b4cm\x7d",
      "\\noindent\x7b\\color\x7bgray\x7d" ++ otherRole role ++ ": " ++
        escape_latex (pyStrip (pyRstripStar item)) ++ "\x7d",
      "",
      "\\vspace\x7b0.3em\x7d",
      textFieldLine (fieldTag (c + 1)),
      "",
      "\\vspace\x7b0.4cm\x7d",
      ""], c + 2)

/-- Lines for one item of the reader's own role's subsection at counter `c`. -/
def mineItemLines (item : String) (c : Nat) : List String × Nat :=
  if pyEndsWithStar item then
    (["\\noindent\\textit\x7b" ++ escape_latex (pyStrip (pyRstripStar item)) ++ "\x7d",
      "",
      "\\vspace\x7b0.3cm\x7d",
      ""], c)
  else
    (["\\needspace\x7b4cm\x7d",
      "\\noindent " ++ escape_latex (pyStrip (pyRstripStar item)),
      "",
      "\\vspace\x7b0.3em\x7d",
      textFieldLine (fieldTag c),
      "",
      "\\vspace\x7b0.4cm\x7d",
      ""], c + 1)

/-- Lines for one item of the other role's subsection: gray reference text,
no field. -/
def otherItemLines (role item : String) : List String :=
  ["\\noindent\x7b\\color\x7bgray\x7d" ++ otherRole role ++ ": " ++
     escape_latex (pyStrip (pyRstripStar item)) ++ "\x7d",
   "",
   "\\vspace\x7b0.15cm\x7d",
   ""]

/-- Concatenation of `f` over a list (Python list-append loops). -/
def catMap (f : α → List β) : List α → List β
  | [] => []
  | a :: as => f a ++ catMap f as

/-- The `for item in subsection['items']` loop of the `Both` branch. -/
def bothItemsLines (role : String) : List String → Nat → List String × Nat
  | [], c => ([], c)
  | it :: rest, c =>
    let p := bothItemLines role it c
    let q := bothItemsLines role rest p.2
    (p.1 ++ q.1, q.2)

/-- The `for item in subsection['items']` loop of the own-role branch. -/
def mineItemsLines : List String → Nat → List String × Nat
  | [], c => ([], c)
  | it :: rest, c =>
    let p := mineItemLines it c
    let q := mineItemsLines rest p.2
    (p.1 ++ q.1, q.2)

/-- Rendering of one subsection (endoy.py lines 219-319): classify the
header, then run the matching item loop. -/
def scriptSubLines (role : String) (sub : Subsectn) (c : Nat) : List String × Nat :=
  let headerIsAction := pyEndsWithStar sub.header
  let headerBase := pyRstripStar sub.header
  let isBoth : Bool := headerBase == "Both"
  let isMyRole : Bool := headerBase == role
  let isOtherRole : Bool :=
    (headerBase == "Mentee" || headerBase == "Mentor") && !isMyRole && !isBoth
  if headerIsAction then (catMap actionItemLines sub.items, c)
  else if isBoth then bothItemsLines role sub.items c
  else if isMyRole then mineItemsLines sub.items c
  else if isOtherRole then (catMap (otherItemLines role) sub.items, c)
  else ([], c)

/-- The `for subsection in section['subsections']` loop. -/
def scriptSubsLines (role : String) : List Subsectn → Nat → List String × Nat
  | [], c => ([], c)
  | sub :: rest, c =>
    let p := scriptSubLines role sub c
    let q := scriptSubsLines role rest p.2
    (p.1 ++ q.1, q.2)

/-- Rendering of one section: header block, subsections, trailing space. -/
def scriptSectionLines (role : String) (s : Sectn) (c : Nat) : List String × Nat :=
  let p := scriptSubsLines role s.subsections c
  (["\\needspace\x7b6cm\x7d",
    "\\noindent\\textbf\x7b\\large " ++ escape_latex s.header ++ "\x7d",
    "",
    "\\vspace\x7b0.3cm\x7d",
    ""] ++ p.1 ++
   ["\\vspace\x7b0.3cm\x7d",
    ""], p.2)

/-- The `for section in parsed_data['sections']` loop. -/
def scriptSectionsLines (role : String) : List Sectn → Nat → List String × Nat
  | [], c => ([], c)
  | s :: rest, c =>
    let p := scriptSectionLines role s c
    let q := scriptSectionsLines role rest p.2
    (p.1 ++ q.1, q.2)

/-- The fixed preamble, the optional title block and the instructions
block emitted before the sections (endoy.py lines 166-204). -/
def scriptPreamble (d : Document) (role : String) : List String :=
  ["\\documentclass[9pt,a4paper]\x7barticle\x7d",
   "\\usepackage[margin=1in]\x7bgeometry\x7d",
   "\\usepackage\x7bhyperref\x7d",
   "\\usepackage\x7bxcolor\x7d",
   "\\usepackage\x7bneedspace\x7d",
   "",
   "% Configure form field appearance",
   "\\hypersetup\x7b",
   "    pdfborder=\x7b0 0 0\x7d",
   "\x7d",
   "",
   "\\begin\x7bdocument\x7d",
   ""] ++
  (if d.title ≠ "" then
    ["\\begin\x7bcenter\x7d",
     "\x7b\\Large\\bfseries " ++ escape_latex d.title ++ " (" ++ role ++ ")\x7d",
     "\\end\x7bcenter\x7d",
     "",
     "\\vspace\x7b0.5cm\x7d",
     ""]
   else []) ++
  ["\\noindent\\textbf\x7bInstructions:\x7d",
   "",
   "\\vspace\x7b0.2cm\x7d",
   "",
   "\\noindent This script is designed to help you prepare for and guide your end-of-year meeting. Questions in black are meant for you to answer and have fillable text fields. Questions in gray (prefixed with ``" ++ otherRole role ++ ":\x27\x27) are for the other person and are provided for your reference. Items in italics are instructions or actions to be completed.",
   "",
   "\\vspace\x7b0.2cm\x7d",
   "",
   "\\noindent\\textbf\x7bPreparation:\x7d Please complete this form \\textit\x7bbefore\x7d the meeting. Thoughtful preparation is essential---take time to reflect deeply on each question. Your honest, considered responses will make the meeting more productive and meaningful for both parties.",
   "",
   "\\vspace\x7b0.5cm\x7d",
   ""]

/-- All lines of the script document, in emission order. -/
def scriptLines (d : Document) (role : String) : List String :=
  scriptPreamble d role ++ (scriptSectionsLines role d.sections 1).1 ++
    ["\\end\x7bdocument\x7d"]

/-- `generate_latex_script` (role default `'Mentee'` is passed explicitly
by every caller). -/
def generate_latex_script (d : Document) (role : String) : String :=
  joinNL (scriptLines d role)

/-! ## Skills generator (`generate_latex_skills`, endoy.py lines 375-523) -/

/-- The fixed preamble, title, legend header and instructions pointer of the
assessment document (endoy.py lines 385-436). -/
def skillsPreamble : List String :=
  ["\\documentclass[9pt,a4paper]\x7barticle\x7d",
   "\\usepackage[top=0.8in, bottom=0.8in, left=1in, right=1in]\x7bgeometry\x7d",
   "\\usepackage\x7barray\x7d",
   "\\usepackage\x7bamssymb\x7d",
   "\\usepackage\x7bpifont\x7d",
   "\\usepackage\x7btikz\x7d",
   "\\usepackage\x7bhyperref\x7d",
   "\\pagestyle\x7bempty\x7d",
   "",
   "% Define rating and checkbox commands as clickable form fields",
   "% Rating squares: each gets unique name for independent clicking",
   "\\newcommand\x7b\\ratingcircle\x7d[2]\x7b%",
   "  \\raisebox\x7b-0ex\x7d\x7b\\CheckBox[name=#1_#2,width=1.2ex,height=1.2ex,bordercolor=\x7b0 0 0\x7d,borderstyle=S,borderwidth=1]\x7b\x7d\x7d%",
   "\x7d",
   "% Target checkbox - static empty circle (no clicking behavior needed)",
   "\\newcommand\x7b\\checkbox\x7d[1]\x7b\\raisebox\x7b-0.6ex\x7d\x7b\\tikz\\draw[very thick] (0,0) circle (1.2ex);\x7d\x7d",
   "\\setlength\x7b\\parskip\x7d\x7b0pt\x7d",
   "\\setlength\x7b\\parindent\x7d\x7b0pt\x7d",
   "",
   "\\begin\x7bdocument\x7d",
   "",
   "\\begin\x7bcenter\x7d",
   "\x7b\\Large\\bfseries Assessment of skills for next year planning\x7d",
   "\\end\x7bcenter\x7d",
   "",
   "\\vspace\x7b0.2cm\x7d",
   "",
   "% Header with labels - 4-column with explicit spacing: text | ability (5 boxes) | importance (3 boxes) | target checkbox",
   "\\noindent",
   "\\begin\x7btabular\x7d\x7b@\x7b\x7dp\x7b\\dimexpr\\textwidth-2.4cm-1.3cm-1cm-3.5em-10pt\\relax\x7d",
   "                @\x7b\\hspace\x7b1em\x7d\x7d>\x7b\\centering\\arraybackslash\x7dp\x7b2.4cm\x7d",
   "                @\x7b\\hspace\x7b2.5em\x7d\x7d>\x7b\\centering\\arraybackslash\x7dp\x7b1.3cm\x7d",
   "                @\x7b\\hspace\x7b1em\x7d\x7d>\x7b\\centering\\arraybackslash\x7dp\x7b1cm\x7d@\x7b\x7d\x7d",
   "\t& \x7b\\small current ability \x7d & \x7b\\small priority\x7d & \\\\",
   "\t& \\begin\x7btabular*\x7d\x7b2.4cm\x7d\x7b@\x7b\x7dl@\x7b\\extracolsep\x7b\\fill\x7d\x7dr@\x7b\x7d\x7d",
   "    \\small poor & \\small great",
   "  \\end\x7btabular*\x7d",
   "  & \\begin\x7btabular*\x7d\x7b1.3cm\x7d\x7b@\x7b\x7dl@\x7b\\extracolsep\x7b\\fill\x7d\x7dr@\x7b\x7d\x7d",
   "    \\small low & \\small high",
   "  \\end\x7btabular*\x7d & \x7b\\small target\x7d \\\\",
   "\\end\x7btabular\x7d",
   "",
   "",
   "",
   "\\vspace\x7b-2em\x7d",
   "",
   "\x7b\\small \\textcolor\x7bgray\x7d\x7b(Check the back page for instructions)\x7d\x7d",
   "",
   "\\vspace\x7b1em\x7d"]

/-- The single-line table row for one skill item (the Python `row`
f-string, endoy.py lines 475-490). -/
def skillRow (skillName itemText : String) : String :=
  itemText ++ " & " ++
  "\\begin\x7btabular*\x7d\x7b2.4cm\x7d\x7b@\x7b\x7dc@\x7b\\extracolsep\x7b\\fill\x7d\x7dc@\x7b\\extracolsep\x7b\\fill\x7d\x7dc@\x7b\\extracolsep\x7b\\fill\x7d\x7dc@\x7b\\extracolsep\x7b\\fill\x7d\x7dc@\x7b\x7d\x7d" ++
  "\\ratingcircle\x7b" ++ skillName ++ "_ability\x7d\x7b1\x7d & " ++
  "\\ratingcircle\x7b" ++ skillName ++ "_ability\x7d\x7b2\x7d & " ++
  "\\ratingcircle\x7b" ++ skillName ++ "_ability\x7d\x7b3\x7d & " ++
  "\\ratingcircle\x7b" ++ skillName ++ "_ability\x7d\x7b4\x7d & " ++
  "\\ratingcircle\x7b" ++ skillName ++ "_ability\x7d\x7b5\x7d" ++
  "\\end\x7btabular*\x7d & " ++
  "\\begin\x7btabular*\x7d\x7b1.3cm\x7d\x7b@\x7b\x7dc@\x7b\\extracolsep\x7b\\fill\x7d\x7dc@\x7b\\extracolsep\x7b\\fill\x7d\x7dc@\x7b\x7d\x7d" ++
  "\\ratingcircle\x7b" ++ skillName ++ "_importance\x7d\x7b1\x7d & " ++
  "\\ratingcircle\x7b" ++ skillName ++ "_importance\x7d\x7b2\x7d & " ++
  "\\ratingcircle\x7b" ++ skillName ++ "_importance\x7d\x7b3\x7d" ++
  "\\end\x7btabular*\x7d & " ++
  "\\checkbox\x7b" ++ skillName ++ "_target\x7d"

/-- Lines for one assessment item at counter `c` (tabular head, row,
tabular end); the item text passes through `escape_latex` unmodified. -/
def skillsItemLines (item : String) (c : Nat) : List String × Nat :=
  (["\\noindent\\begin\x7btabular\x7d\x7b@\x7b\x7dp\x7b\\dimexpr\\textwidth-2.4cm-1.3cm-1cm-3.5em-10pt\\relax\x7d",
    "                @\x7b\\hspace\x7b1em\x7d\x7d>\x7b\\arraybackslash\x7dp\x7b2.4cm\x7d",
    "                @\x7b\\hspace\x7b2.5em\x7d\x7d>\x7b\\arraybackslash\x7dp\x7b1.3cm\x7d",
    "                @\x7b\\hspace\x7b1em\x7d\x7d>\x7b\\centering\\arraybackslash\x7dp\x7b1cm\x7d@\x7b\x7d\x7d",
    skillRow ("skill" ++ natStr c) (escape_latex item),
    "\\end\x7btabular\x7d\\\\[0.02cm]"], c + 1)

/-- The `for item in items` loop of the skills generator. -/
def skillsItemsLines : List String → Nat → List String × Nat
  | [], c => ([], c)
  | it :: rest, c =>
    let p := skillsItemLines it c
    let q := skillsItemsLines rest p.2
    (p.1 ++ q.1, q.2)

/-- The items rendered for a section.  The source guards with
`if 'items' in section: items = section['items'] elif 'subsections' in
section: ...`; every parsed section dict carries the `'items'` key (the
parser stores it at creation), so the membership test always succeeds and
the subsections fallback of the source is unreachable for parsed input. -/
def skillsSectionItems (s : Sectn) : List String := s.items

/-- Rendering of one assessment section: bold header then one row block
per item. -/
def skillsSectionLines (s : Sectn) (c : Nat) : List String × Nat :=
  let p := skillsItemsLines (skillsSectionItems s) c
  (["\\noindent\\textbf\x7b" ++ escape_latex s.header ++ "\x7d\\\\[0.1cm]"] ++
   p.1 ++ [""], p.2)

/-- The `for section in parsed_data['sections']` loop of the skills
generator, with the counter starting at 1. -/
def skillsSectionsLines : List Sectn → Nat → List String × Nat
  | [], c => ([], c)
  | s :: rest, c =>
    let p := skillsSectionLines s c
    let q := skillsSectionsLines rest p.2
    (p.1 ++ q.1, q.2)

/-- The fixed instruction page appended after all sections
(endoy.py lines 498-519). -/
def skillsInstructions : List String :=
  ["\\newpage",
   "",
   "\\section*\x7bInstructions\x7d",
   "",
   "\\noindent This document is designed to help you identify key transversal academic skills that you might want to strengthen during the next year. Fill it in with as much honesty as you can. You will revise it with your mentor afterwards, so do not worry too much about being objective---rather, try to write what is most representative of your current understanding. There will be plenty of opportunities to make amendments.",
   "",
   "\\vspace\x7b0.5cm\x7d",
   "",
   "\\noindent First, go through each of the items and use the first column of checkboxes to self-report your perceived degree of ability at each of them. Use the low end for an absolute lack of ability, and the high end for abilities that are as developed as you would like them to be at the end of your PhD. At this stage, ignore the other two columns.",
   "",
   "\\vspace\x7b0.5cm\x7d",
   "",
   "\\noindent Second, evaluate the priority of each of the skills, independently of your current level of ability. A skill is a priority when you deem it generally important and/or it is relevant for your current project. A skill that you do not think you will have use for in a mid-term horizon probably does not deserve a high priority.",
   "",
   "\\vspace\x7b0.5cm\x7d",
   "",
   "\\noindent Last, select a set of 2--10 skills you would like to target as learning objectives for the next year. Try to choose those for which you have low ability and high priority, but that also seem exciting to you at this point. Feel free to add additional skills that you deem important but are not included in this document.",
   "",
   "\\vspace\x7b0.5cm\x7d",
   "",
   "\\noindent Bring this list with you to the end-of-the-year meeting, where you will have the opportunity to revise and refine the list of priorities for the incoming year.",
   ""]

/-- All lines of the assessment document, in emission order. -/
def skillsLines (d : Document) : List String :=
  skillsPreamble ++ (skillsSectionsLines d.sections 1).1 ++ skillsInstructions ++
    ["\\end\x7bdocument\x7d"]

/-- `generate_latex_skills`. -/
def generate_latex_skills (d : Document) : String := joinNL (skillsLines d)

/-! ## The two emitted LaTeX marker macros

Modelled from the `\newcommand` lines the generator emits (endoy.py lines
397-401): expanding `\ratingcircle{a}{b}` yields a `\CheckBox` form field
named `a_b`; expanding `\checkbox{a}` yields a static tikz circle whose
body never uses the argument `#1`. -/

/-- Expansion of the emitted macro
`\newcommand{\ratingcircle}[2]{\raisebox{-0ex}{\CheckBox[name=#1_#2,...]{}}}`. -/
def ratingcircle (a b : String) : String :=
  "\\raisebox\x7b-0ex\x7d\x7b\\CheckBox[name=" ++ a ++ "_" ++ b ++
    ",width=1.2ex,height=1.2ex,bordercolor=\x7b0 0 0\x7d,borderstyle=S,borderwidth=1]\x7b\x7d\x7d"

/-- Expansion of the emitted macro
`\newcommand{\checkbox}[1]{\raisebox{-0.6ex}{\tikz\draw[very thick] (0,0) circle (1.2ex);}}`:
the body ignores the argument. -/
def checkbox (_a : String) : String :=
  "\\raisebox\x7b-0.6ex\x7d\x7b\\tikz\\draw[very thick] (0,0) circle (1.2ex);\x7d"

/-! ## Observers over the generated markup -/

/-- The interactive-field name of an emitted line: for a `\TextField` line
the text between `name=` and the first comma, `none` for any other line. -/
def fieldNameOfLine (l : String) : Option String :=
  if listIsPre fieldLinePre.data l.data then
    some ⟨(l.data.drop fieldLinePre.data.length).takeWhile (fun c => c != ',')⟩
  else none

/-- All interactive-field names of one script render, in emission order. -/
def scriptFieldNames (d : Document) (role : String) : List String :=
  (scriptLines d role).filterMap fieldNameOfLine

/-- The right-brace character (written by code point to keep string
literals free of braces). -/
def rb : Char := Char.ofNat 125

/-- The item rows of an assessment render: exactly the lines carrying
`\ratingcircle\x7b` calls (the preamble's `\newcommand` lines contain
`\ratingcircle\x7d` but never `\ratingcircle\x7b`). -/
def skillsRowsOf (d : Document) : List String :=
  (skillsLines d).filter (fun l => listHasSub "\\ratingcircle\x7b".data l.data)

/-- The marker names appearing in a character list, in order: each call
`\ratingcircle{a}{b}` contributes `a_b` (the `name=#1_#2` of its
expansion), each call `\checkbox{a}` contributes `a`. -/
def markerScan : List Char → List String
  | [] => []
  | c :: cs =>
    if listIsPre "\\ratingcircle\x7b".data (c :: cs) then
      let rest := (c :: cs).drop "\\ratingcircle\x7b".data.length
      let name := rest.takeWhile (fun x => x != rb)
      let arg := (rest.drop (name.length + 2)).takeWhile (fun x => x != rb)
      (⟨name⟩ ++ "_" ++ ⟨arg⟩) :: markerScan cs
    else if listIsPre "\\checkbox\x7b".data (c :: cs) then
      let rest := (c :: cs).drop "\\checkbox\x7b".data.length
      (⟨rest.takeWhile (fun x => x != rb)⟩ : String) :: markerScan cs
    else markerScan cs

/-! ## Auxiliary definitions for the statements and proofs -/

/-- Value of a little-endian digit list (left inverse of `decDigits`). -/
def fromDigits : List Nat → Nat
  | [] => 0
  | d :: ds => d + 10 * fromDigits ds

/-- Numeric value of a digit character (left inverse of `dchar` below 10). -/
def dcharVal (c : Char) : Nat := c.toNat - 48

/-- `FieldsFrom p c`: the rendered block `p.1` was produced starting at
field counter `c`, finished at counter `p.2`, and its interactive-field
names are exactly the consecutive tags `fieldTag c, …, fieldTag (p.2 - 1)`. -/
def FieldsFrom (p : List String × Nat) (c : Nat) : Prop :=
  ∃ k, p.2 = c + k ∧
    p.1.filterMap fieldNameOfLine = (List.range' c k).map fieldTag

/-- A raw input line that matches none of the three heading prefixes after
its trailing whitespace is stripped. -/
def HeadingFree (l : String) : Prop :=
  strStarts "# " (pyRstrip l) = false ∧ strStarts "## " (pyRstrip l) = false ∧
    strStarts "### " (pyRstrip l) = false

/-- A raw input line that matches none of the four recognized prefixes
after its trailing whitespace is stripped. -/
def NoPrefixMatch (l : String) : Prop :=
  HeadingFree l ∧ strStarts "- " (pyRstrip l) = false

/-- The line list `parse_markdown` iterates over. -/
def parseLinesOf (content : String) : List String :=
  (splitLinesL (pyStrip content).data).map fun l => (⟨l⟩ : String)

/-! ## Injectivity of the decimal rendering -/

theorem fromDigits_decDigitsCore :
    ∀ fuel n, n ≤ fuel → fromDigits (decDigitsCore fuel n) = n := by
  intro fuel
  induction fuel with
  | zero =>
    intro n hn
    interval_cases n
    rfl
  | succ fuel ih =>
    intro n hn
    match n with
    | 0 => rfl
    | m + 1 =>
      have hdiv : (m + 1) / 10 < m + 1 := Nat.div_lt_self (Nat.succ_pos m) (by omega)
      have hle : (m + 1) / 10 ≤ fuel := by omega
      simp only [decDigitsCore, fromDigits, ih _ hle]
      omega

theorem fromDigits_decDigits (n : Nat) : fromDigits (decDigits n) = n :=
  fromDigits_decDigitsCore n n (Nat.le_refl n)

theorem decDigitsCore_lt_ten :
    ∀ fuel n, ∀ d ∈ decDigitsCore fuel n, d < 10 := by
  intro fuel
  induction fuel with
  | zero => intro n d hd; simp [decDigitsCore] at hd
  | succ fuel ih =>
    intro n d hd
    match n with
    | 0 => simp [decDigitsCore] at hd
    | m + 1 =>
      simp only [decDigitsCore, List.mem_cons] at hd
      rcases hd with h | h
      · subst h; exact Nat.mod_lt _ (by omega)
      · exact ih _ _ h

theorem dcharVal_dchar {d : Nat} (hd : d < 10) : dcharVal (dchar d) = d := by
  interval_cases d <;> rfl

theorem map_dchar_inj :
    ∀ l₁ l₂ : List Nat, (∀ d ∈ l₁, d < 10) → (∀ d ∈ l₂, d < 10) →
      l₁.map dchar = l₂.map dchar → l₁ = l₂ := by
  intro l₁
  induction l₁ with
  | nil =>
    intro l₂ _ _ h
    cases l₂ with
    | nil => rfl
    | cons b bs => simp at h
  | cons a as ih =>
    intro l₂ h₁ h₂ h
    cases l₂ with
    | nil => simp at h
    | cons b bs =>
      simp only [List.map_cons, List.cons.injEq] at h
      have ha : a < 10 := h₁ a (by simp)
      have hb : b < 10 := h₂ b (by simp)
      have hab : a = b := by
        have := congrArg dcharVal h.1
        rwa [dcharVal_dchar ha, dcharVal_dchar hb] at this
      have : as = bs :=
        ih bs (fun d hd => h₁ d (by simp [hd])) (fun d hd => h₂ d (by simp [hd])) h.2
      simp [hab, this]

theorem natStr_inj : Function.Injective natStr := by
  intro a b h
  by_cases ha : a = 0 <;> by_cases hb : b = 0
  · omega
  · exfalso
    subst ha
    simp only [natStr, if_pos rfl, if_neg hb] at h
    have hdata : ('0' :: []) = (decDigits b).reverse.map dchar := congrArg String.data h
    have hdata' : List.map dchar [0] = (decDigits b).reverse.map dchar := by
      rw [show List.map dchar [0] = ('0' :: []) from rfl]
      exact hdata
    have hrev : ([0] : List Nat) = (decDigits b).reverse := by
      apply map_dchar_inj
      · intro d hd
        simp at hd
        omega
      · intro d hd
        exact decDigitsCore_lt_ten _ _ d (List.mem_reverse.mp hd)
      · exact hdata'
    have hdd : decDigits b = [0] := by simpa using congrArg List.reverse hrev.symm
    have hb' := fromDigits_decDigits b
    rw [hdd] at hb'
    simp [fromDigits] at hb'
    omega
  · exfalso
    subst hb
    simp only [natStr, if_pos rfl, if_neg ha] at h
    have hdata : (decDigits a).reverse.map dchar = ('0' :: []) := congrArg String.data h
    have hdata' : (decDigits a).reverse.map dchar = List.map dchar [0] := by
      rw [show List.map dchar [0] = ('0' :: []) from rfl]
      exact hdata
    have hrev : (decDigits a).reverse = ([0] : List Nat) := by
      apply map_dchar_inj
      · intro d hd
        exact decDigitsCore_lt_ten _ _ d (List.mem_reverse.mp hd)
      · intro d hd
        simp at hd
        omega
      · exact hdata'
    have hdd : decDigits a = [0] := by simpa using congrArg List.reverse hrev
    have ha' := fromDigits_decDigits a
    rw [hdd] at ha'
    simp [fromDigits] at ha'
    omega
  · simp only [natStr, if_neg ha, if_neg hb] at h
    have hdata : (decDigits a).reverse.map dchar = (decDigits b).reverse.map dchar :=
      congrArg String.data h
    have hrev : (decDigits a).reverse = (decDigits b).reverse := by
      apply map_dchar_inj _ _ _ _ hdata
      · intro d hd
        exact decDigitsCore_lt_ten _ _ d (List.mem_reverse.mp hd)
      · intro d hd
        exact decDigitsCore_lt_ten _ _ d (List.mem_reverse.mp hd)
    have hdd : decDigits a = decDigits b := List.reverse_injective hrev
    have := fromDigits_decDigits a
    rw [hdd, fromDigits_decDigits] at this
    omega

theorem fieldTag_inj : Function.Injective fieldTag := by
  intro i j h
  apply natStr_inj
  apply String.ext
  have hdata : ("field".data ++ (natStr i).data) = ("field".data ++ (natStr j).data) := by
    simpa [fieldTag, String.data_append] using congrArg String.data h
  exact List.append_cancel_left hdata

/-! ## Extraction of field names from emitted lines -/

theorem listIsPre_append_self : ∀ p r : List Char, listIsPre p (p ++ r) = true := by
  intro p
  induction p with
  | nil => intro r; rfl
  | cons a as ih => intro r; simp [listIsPre, ih]

theorem listIsPre_take_of_append :
    ∀ (p a b : List Char), listIsPre p (a ++ b) = true →
      listIsPre (p.take a.length) a = true := by
  intro p
  induction p with
  | nil => intro a b _; cases a <;> simp [listIsPre]
  | cons x xs ih =>
    intro a b h
    cases a with
    | nil => simp [listIsPre]
    | cons y ys =>
      simp only [List.cons_append, listIsPre, Bool.and_eq_true, decide_eq_true_eq] at h
      simp only [List.length_cons, List.take_succ_cons, listIsPre, Bool.and_eq_true,
        decide_eq_true_eq]
      exact ⟨h.1, ih ys b h.2⟩

theorem fieldNameOfLine_of_lit (lit x : String)
    (h : listIsPre (fieldLinePre.data.take lit.data.length) lit.data = false) :
    fieldNameOfLine (lit ++ x) = none := by
  unfold fieldNameOfLine
  rw [if_neg]
  intro hcon
  rw [String.data_append] at hcon
  have := listIsPre_take_of_append _ _ _ hcon
  rw [h] at this
  cases this

theorem takeWhile_append_stop {p : α → Bool} (l₁ : List α) (c : α) (l₂ : List α)
    (h₁ : ∀ a ∈ l₁, p a = true) (hc : p c = false) :
    (l₁ ++ c :: l₂).takeWhile p = l₁ := by
  induction l₁ with
  | nil => simp [List.takeWhile, hc]
  | cons a as ih =>
    have ha : p a = true := h₁ a (by simp)
    simp only [List.cons_append, List.takeWhile_cons, ha, if_true]
    rw [ih (fun a h => h₁ a (by simp [h]))]

theorem dchar_ne_comma : ∀ d : Nat, ((dchar d) != ',') = true := by
  intro d
  unfold dchar
  split <;> rfl

theorem fieldTag_no_comma : ∀ c0 ∈ (fieldTag c).data, (c0 != ',') = true := by
  intro c0 hc0
  simp only [fieldTag, String.data_append] at hc0
  rcases List.mem_append.mp hc0 with h | h
  · fin_cases h <;> rfl
  · unfold natStr at h
    split at h
    · fin_cases h
      rfl
    · simp only [List.mem_map] at h
      obtain ⟨d, _, hd⟩ := h
      rw [← hd]
      exact dchar_ne_comma d

theorem fieldNameOfLine_textFieldLine (name : String)
    (h : ∀ c0 ∈ name.data, (c0 != ',') = true) :
    fieldNameOfLine (textFieldLine name) = some name := by
  have hdata : (textFieldLine name).data =
      fieldLinePre.data ++ (name.data ++ fieldLineSuf.data) := by
    simp [textFieldLine, String.data_append]
  unfold fieldNameOfLine
  rw [hdata, if_pos (listIsPre_append_self _ _), List.drop_left]
  have hsuf : fieldLineSuf.data =
      ',' :: "multiline=true,width=\\textwidth,height=2.5cm,bordercolor=\x7b0 0 0\x7d,backgroundcolor=\x7b0.95 0.95 0.95\x7d]\x7b\x7d".data := rfl
  rw [hsuf, takeWhile_append_stop _ _ _ h (by decide)]

theorem fieldNameOfLine_fieldTag (c : Nat) :
    fieldNameOfLine (textFieldLine (fieldTag c)) = some (fieldTag c) :=
  fieldNameOfLine_textFieldLine _ fieldTag_no_comma

/-! ## Field lines of each rendering branch -/

theorem fno_empty : fieldNameOfLine "" = none := by decide
theorem fno_needspace4 : fieldNameOfLine "\\needspace\x7b4cm\x7d" = none := by decide
theorem fno_needspace6 : fieldNameOfLine "\\needspace\x7b6cm\x7d" = none := by decide
theorem fno_vspace03em : fieldNameOfLine "\\vspace\x7b0.3em\x7d" = none := by decide
theorem fno_vspace02 : fieldNameOfLine "\\vspace\x7b0.2cm\x7d" = none := by decide
theorem fno_vspace03 : fieldNameOfLine "\\vspace\x7b0.3cm\x7d" = none := by decide
theorem fno_vspace04 : fieldNameOfLine "\\vspace\x7b0.4cm\x7d" = none := by decide
theorem fno_vspace015 : fieldNameOfLine "\\vspace\x7b0.15cm\x7d" = none := by decide

theorem fno_textit (x : String) :
    fieldNameOfLine ("\\noindent\\textit\x7b" ++ x) = none :=
  fieldNameOfLine_of_lit _ _ (by decide)

theorem fno_noindentSp (x : String) :
    fieldNameOfLine ("\\noindent " ++ x) = none :=
  fieldNameOfLine_of_lit _ _ (by decide)

theorem fno_gray (x : String) :
    fieldNameOfLine ("\\noindent\x7b\\color\x7bgray\x7d" ++ x) = none :=
  fieldNameOfLine_of_lit _ _ (by decide)

theorem fno_textbf (x : String) :
    fieldNameOfLine ("\\noindent\\textbf\x7b\\large " ++ x) = none :=
  fieldNameOfLine_of_lit _ _ (by decide)

theorem fno_title (x : String) :
    fieldNameOfLine ("\x7b\\Large\\bfseries " ++ x) = none :=
  fieldNameOfLine_of_lit _ _ (by decide)

theorem FieldsFrom.append {p q : List String × Nat} {a : Nat}
    (h₁ : FieldsFrom p a) (h₂ : FieldsFrom q p.2) :
    FieldsFrom (p.1 ++ q.1, q.2) a := by
  obtain ⟨k₁, hk₁, hf₁⟩ := h₁
  obtain ⟨k₂, hk₂, hf₂⟩ := h₂
  refine ⟨k₁ + k₂, by omega, ?_⟩
  rw [List.filterMap_append, hf₁, hf₂, hk₁, ← List.map_append, List.range'_append_1,
    Nat.add_comm k₂ k₁]

theorem fieldsFrom_of_nil {ls : List String} {c : Nat}
    (h : ls.filterMap fieldNameOfLine = []) : FieldsFrom (ls, c) c :=
  ⟨0, rfl, by simp [h]⟩

theorem fields_actionItemLines (item : String) :
    (actionItemLines item).filterMap fieldNameOfLine = [] := by
  unfold actionItemLines
  simp only [String.append_assoc, List.filterMap_cons, List.filterMap_nil,
    fno_textit, fno_empty, fno_vspace03]

theorem fields_otherItemLines (role item : String) :
    (otherItemLines role item).filterMap fieldNameOfLine = [] := by
  unfold otherItemLines
  simp only [String.append_assoc, List.filterMap_cons, List.filterMap_nil,
    fno_gray, fno_empty, fno_vspace015]

theorem fields_catMap {f : String → List String}
    (hf : ∀ a, (f a).filterMap fieldNameOfLine = []) :
    ∀ l : List String, (catMap f l).filterMap fieldNameOfLine = [] := by
  intro l
  induction l with
  | nil => rfl
  | cons a as ih => simp [catMap, List.filterMap_append, hf a, ih]

theorem fields_bothItemLines (role item : String) (c : Nat) :
    FieldsFrom (bothItemLines role item c) c := by
  unfold bothItemLines
  split
  · exact fieldsFrom_of_nil (by
      simp only [String.append_assoc, List.filterMap_cons, List.filterMap_nil,
        fno_textit, fno_empty, fno_vspace03])
  · refine ⟨2, rfl, ?_⟩
    simp only [String.append_assoc, List.filterMap_cons, List.filterMap_nil,
      fno_needspace4, fno_noindentSp, fno_empty, fno_vspace03em, fno_vspace02,
      fno_vspace04, fno_gray, fieldNameOfLine_fieldTag]
    rfl

theorem fields_mineItemLines (item : String) (c : Nat) :
    FieldsFrom (mineItemLines item c) c := by
  unfold mineItemLines
  split
  · exact fieldsFrom_of_nil (by
      simp only [String.append_assoc, List.filterMap_cons, List.filterMap_nil,
        fno_textit, fno_empty, fno_vspace03])
  · refine ⟨1, rfl, ?_⟩
    simp only [String.append_assoc, List.filterMap_cons, List.filterMap_nil,
      fno_needspace4, fno_noindentSp, fno_empty, fno_vspace03em, fno_vspace04,
      fieldNameOfLine_fieldTag]
    rfl

theorem fields_bothItemsLines (role : String) :
    ∀ (items : List String) (c : Nat), FieldsFrom (bothItemsLines role items c) c := by
  intro items
  induction items with
  | nil => intro c; exact ⟨0, rfl, rfl⟩
  | cons it rest ih =>
    intro c
    exact FieldsFrom.append (fields_bothItemLines role it c) (ih _)

theorem fields_mineItemsLines :
    ∀ (items : List String) (c : Nat), FieldsFrom (mineItemsLines items c) c := by
  intro items
  induction items with
  | nil => intro c; exact ⟨0, rfl, rfl⟩
  | cons it rest ih =>
    intro c
    exact FieldsFrom.append (fields_mineItemLines it c) (ih _)

theorem fields_scriptSubLines (role : String) (sub : Subsectn) (c : Nat) :
    FieldsFrom (scriptSubLines role sub c) c := by
  simp only [scriptSubLines]
  split
  · exact fieldsFrom_of_nil (fields_catMap fields_actionItemLines _)
  · split
    · exact fields_bothItemsLines role _ c
    · split
      · exact fields_mineItemsLines _ c
      · split
        · exact fieldsFrom_of_nil (fields_catMap (fields_otherItemLines role) _)
        · exact ⟨0, rfl, rfl⟩

theorem fields_scriptSubsLines (role : String) :
    ∀ (subs : List Subsectn) (c : Nat), FieldsFrom (scriptSubsLines role subs c) c := by
  intro subs
  induction subs with
  | nil => intro c; exact ⟨0, rfl, rfl⟩
  | cons sub rest ih =>
    intro c
    exact FieldsFrom.append (fields_scriptSubLines role sub c) (ih _)

theorem fields_scriptSectionLines (role : String) (s : Sectn) (c : Nat) :
    FieldsFrom (scriptSectionLines role s c) c := by
  unfold scriptSectionLines
  exact FieldsFrom.append
    (FieldsFrom.append
      (fieldsFrom_of_nil (by
        simp only [String.append_assoc, List.filterMap_cons, List.filterMap_nil,
          fno_needspace6, fno_textbf, fno_empty, fno_vspace03]))
      (fields_scriptSubsLines role s.subsections c))
    (fieldsFrom_of_nil (by decide))

theorem fields_scriptSectionsLines (role : String) :
    ∀ (secs : List Sectn) (c : Nat), FieldsFrom (scriptSectionsLines role secs c) c := by
  intro secs
  induction secs with
  | nil => intro c; exact ⟨0, rfl, rfl⟩
  | cons s rest ih =>
    intro c
    exact FieldsFrom.append (fields_scriptSectionLines role s c) (ih _)

set_option maxRecDepth 8000 in
theorem fields_scriptPreamble (d : Document) (role : String) :
    (scriptPreamble d role).filterMap fieldNameOfLine = [] := by
  unfold scriptPreamble
  rw [List.filterMap_append, List.filterMap_append]
  have h₁ : (List.filterMap fieldNameOfLine
      ["\\documentclass[9pt,a4paper]\x7barticle\x7d",
       "\\usepackage[margin=1in]\x7bgeometry\x7d",
       "\\usepackage\x7bhyperref\x7d",
       "\\usepackage\x7bxcolor\x7d",
       "\\usepackage\x7bneedspace\x7d",
       "",
       "% Configure form field appearance",
       "\\hypersetup\x7b",
       "    pdfborder=\x7b0 0 0\x7d",
       "\x7d",
       "",
       "\\begin\x7bdocument\x7d",
       ""]) = [] := by decide
  have h₃ : ∀ x : String, fieldNameOfLine
      ("\\noindent This script is designed to help you prepare for and guide your end-of-year meeting. Questions in black are meant for you to answer and have fillable text fields. Questions in gray (prefixed with ``" ++ x) = none :=
    fun x => fieldNameOfLine_of_lit _ _ (by decide)
  rw [h₁]
  have h₂ : (List.filterMap fieldNameOfLine
      (if d.title ≠ "" then
        ["\\begin\x7bcenter\x7d",
         "\x7b\\Large\\bfseries " ++ escape_latex d.title ++ " (" ++ role ++ ")\x7d",
         "\\end\x7bcenter\x7d",
         "",
         "\\vspace\x7b0.5cm\x7d",
         ""]
       else [])) = [] := by
    split
    · simp only [String.append_assoc, List.filterMap_cons, List.filterMap_nil, fno_title]
      decide
    · rfl
  rw [h₂]
  simp only [String.append_assoc, List.filterMap_cons, List.filterMap_nil, h₃]
  decide

/-! ## Parser step lemmas -/

theorem strStarts_dash_excl (x : String) (h : strStarts "- " x = true) :
    strStarts "# " x = false ∧ strStarts "## " x = false ∧
      strStarts "### " x = false := by
  unfold strStarts at *
  rw [show ("- " : String).data = ['-', ' '] from rfl] at h
  rw [show ("# " : String).data = ['#', ' '] from rfl,
    show ("## " : String).data = ['#', '#', ' '] from rfl,
    show ("### " : String).data = ['#', '#', '#', ' '] from rfl]
  cases hx : x.data with
  | nil => rw [hx] at h; cases h
  | cons c cs =>
    rw [hx] at h
    simp only [listIsPre, Bool.and_eq_true, decide_eq_true_eq] at h
    simp [listIsPre, h.1.symm]

theorem parseStep_no_match (st : ParseState) (l : String) (h : NoPrefixMatch l) :
    parseStep st l = st := by
  obtain ⟨⟨h1, h2, h3⟩, h4⟩ := h
  unfold parseStep
  rw [h1, h2, h3, h4]
  rfl

theorem parseStep_h1 (st : ParseState) (l : String)
    (h : strStarts "# " (pyRstrip l) = true) :
    parseStep st l = { st with title := pyStrip (strDrop 2 (pyRstrip l)) } := by
  unfold parseStep
  rw [h]
  rfl

theorem parseStep_bullet_after_h1 (st : ParseState) (h b : String)
    (hh : strStarts "# " (pyRstrip h) = true)
    (hb : strStarts "- " (pyRstrip b) = true) :
    parseStep (parseStep st h) b =
      { parseStep st b with title := pyStrip (strDrop 2 (pyRstrip h)) } := by
  obtain ⟨e1, e2, e3⟩ := strStarts_dash_excl _ hb
  obtain ⟨t, secs, csec, csub⟩ := st
  rw [parseStep_h1 _ h hh]
  unfold parseStep
  rw [e1, e2, e3, hb]
  cases csub <;> cases csec <;> rfl

theorem parseStep_sections_stable (st : ParseState) (l : String)
    (h : strStarts "## " (pyRstrip l) = false) :
    (parseStep st l).sections = st.sections ∧
      (parseStep st l).curSection.isSome = st.curSection.isSome := by
  obtain ⟨t, secs, csec, csub⟩ := st
  unfold parseStep
  rw [h]
  cases h1 : strStarts "# " (pyRstrip l)
  · cases h3 : strStarts "### " (pyRstrip l)
    · cases h4 : strStarts "- " (pyRstrip l)
      · exact ⟨rfl, rfl⟩
      · cases csub with
        | some sub => exact ⟨rfl, rfl⟩
        | none => cases csec <;> exact ⟨rfl, rfl⟩
    · cases csec with
      | none => exact ⟨rfl, rfl⟩
      | some cs => cases csub <;> exact ⟨rfl, rfl⟩
  · exact ⟨rfl, rfl⟩

theorem parseStep_heading_free_init (l : String) (h : HeadingFree l) :
    parseStep initState l = initState := by
  obtain ⟨h1, h2, h3⟩ := h
  unfold parseStep
  rw [h1, h2, h3]
  cases h4 : strStarts "- " (pyRstrip l) <;> rfl

theorem foldl_heading_free :
    ∀ lines : List String, (∀ l ∈ lines, HeadingFree l) →
      lines.foldl parseStep initState = initState := by
  intro lines
  induction lines with
  | nil => intro _; rfl
  | cons l rest ih =>
    intro h
    rw [List.foldl_cons, parseStep_heading_free_init l (h l (by simp))]
    exact ih (fun x hx => h x (by simp [hx]))

theorem parse_markdown_heading_free (content : String)
    (h : ∀ l ∈ parseLinesOf content, HeadingFree l) :
    parse_markdown content = ⟨"", []⟩ := by
  have hl := foldl_heading_free (parseLinesOf content) h
  unfold parseLinesOf at hl
  show finalizeParse (List.foldl parseStep initState
    ((splitLinesL (pyStrip content).data).map fun l => (⟨l⟩ : String))) = ⟨"", []⟩
  rw [hl]
  rfl

/-! ## Claim theorems -/

set_option maxRecDepth 4000 in
/-- Claim C1 (code_bug): evaluating `escape_latex` at the input
`"100% & $5_test"` shows that the backslash substitution, running last,
re-escapes every backslash introduced by the earlier substitutions: the
output is `100\textbackslash{}% \textbackslash{}& \textbackslash{}$5\textbackslash{}_test`,
in which none of the escape sequences `\%`, `\&`, `\$`, `\_` occurs even
once, contradicting the claim that each original reserved character is
substituted exactly once and never re-escaped. -/
theorem c1_escape_reescapes_backslashes :
    escape_latex "100% & $5_test" =
      "100\\textbackslash\x7b\x7d% \\textbackslash\x7b\x7d& \\textbackslash\x7b\x7d$5\\textbackslash\x7b\x7d_test" ∧
    strHasSub "\\%" (escape_latex "100% & $5_test") = false ∧
    strHasSub "\\&" (escape_latex "100% & $5_test") = false ∧
    strHasSub "\\$" (escape_latex "100% & $5_test") = false ∧
    strHasSub "\\_" (escape_latex "100% & $5_test") = false := by
  decide

set_option maxRecDepth 4000 in
/-- Claim C2 (code_bug): parsing `"# T\n## S\n### Mentee\n- A\n"` yields a
section with empty own `items` and the item `A` stored under subsection
`Mentee`; `generate_latex_skills` renders no row at all for it (the
`'items' in section` membership test always succeeds on parsed sections,
so the subsections fallback is dead), contradicting the claimed fallback
to the subsections' items. -/
theorem c2_skills_ignores_subsection_items :
    parse_markdown "# T\n## S\n### Mentee\n- A\n" =
      ⟨"T", [⟨"S", [⟨"Mentee", ["A"]⟩], []⟩]⟩ ∧
    skillsSectionItems ⟨"S", [⟨"Mentee", ["A"]⟩], []⟩ = [] ∧
    skillsRowsOf (parse_markdown "# T\n## S\n### Mentee\n- A\n") = [] := by
  decide

set_option maxRecDepth 4000 in
/-- Claim C3, counterexample: the item `Q*` rendered in assessment mode.
The unique row of `generate_latex_skills` on the parse of
`"# T\n## S\n- Q*"` displays the text `Q*` verbatim (the row line starts
with `Q* & `): the trailing `*` is NOT stripped before display in the
assessment rendering path, refuting the claim for that path. -/
theorem c3_assessment_does_not_strip_star :
    (skillsRowsOf (parse_markdown "# T\n## S\n- Q*")).length = 1 ∧
    listIsPre "Q* & ".data
      (((skillsRowsOf (parse_markdown "# T\n## S\n- Q*")).headD "").data) = true := by
  decide

/-- Claim C3, amended: in script mode an item whose text ends in `*`
renders as italic text with the trailing asterisks stripped and receives
no interactive field under every classification (action block, shared,
own, other), leaving the field counter untouched; in assessment mode the
marker is NOT stripped: the row displays `escape_latex item` verbatim. -/
theorem c3_star_items_script_stripped_assessment_not
    (item role : String) (c : Nat) (h : pyEndsWithStar item = true) :
    actionItemLines item =
      ["\\noindent\\textit\x7b" ++ escape_latex (pyStrip (pyRstripStar item)) ++ "\x7d",
       "", "\\vspace\x7b0.3cm\x7d", ""] ∧
    bothItemLines role item c =
      (["\\noindent\\textit\x7b" ++ escape_latex (pyStrip (pyRstripStar item)) ++ "\x7d",
        "", "\\vspace\x7b0.3cm\x7d", ""], c) ∧
    mineItemLines item c =
      (["\\noindent\\textit\x7b" ++ escape_latex (pyStrip (pyRstripStar item)) ++ "\x7d",
        "", "\\vspace\x7b0.3cm\x7d", ""], c) ∧
    otherItemLines role item =
      ["\\noindent\x7b\\color\x7bgray\x7d" ++ otherRole role ++ ": " ++
         escape_latex (pyStrip (pyRstripStar item)) ++ "\x7d",
       "", "\\vspace\x7b0.15cm\x7d", ""] ∧
    (actionItemLines item).filterMap fieldNameOfLine = [] ∧
    (otherItemLines role item).filterMap fieldNameOfLine = [] ∧
    (skillsItemLines item c).1.getD 4 "" =
      skillRow ("skill" ++ natStr c) (escape_latex item) := by
  refine ⟨rfl, ?_, ?_, rfl, fields_actionItemLines item, fields_otherItemLines role item, rfl⟩
  · unfold bothItemLines
    rw [h]
    rfl
  · unfold mineItemLines
    rw [h]
    rfl

/-- Witness for the amended claim C3 at the concrete action item
`"Reflect on your year*"` with role `Mentee` and counter 1. -/
theorem c3_star_items_witness :
    pyEndsWithStar "Reflect on your year*" = true ∧
    (actionItemLines "Reflect on your year*" =
      ["\\noindent\\textit\x7b" ++
         escape_latex (pyStrip (pyRstripStar "Reflect on your year*")) ++ "\x7d",
       "", "\\vspace\x7b0.3cm\x7d", ""] ∧
    bothItemLines "Mentee" "Reflect on your year*" 1 =
      (["\\noindent\\textit\x7b" ++
          escape_latex (pyStrip (pyRstripStar "Reflect on your year*")) ++ "\x7d",
        "", "\\vspace\x7b0.3cm\x7d", ""], 1) ∧
    mineItemLines "Reflect on your year*" 1 =
      (["\\noindent\\textit\x7b" ++
          escape_latex (pyStrip (pyRstripStar "Reflect on your year*")) ++ "\x7d",
        "", "\\vspace\x7b0.3cm\x7d", ""], 1) ∧
    otherItemLines "Mentee" "Reflect on your year*" =
      ["\\noindent\x7b\\color\x7bgray\x7d" ++ otherRole "Mentee" ++ ": " ++
         escape_latex (pyStrip (pyRstripStar "Reflect on your year*")) ++ "\x7d",
       "", "\\vspace\x7b0.15cm\x7d", ""] ∧
    (actionItemLines "Reflect on your year*").filterMap fieldNameOfLine = [] ∧
    (otherItemLines "Mentee" "Reflect on your year*").filterMap fieldNameOfLine = [] ∧
    (skillsItemLines "Reflect on your year*" 1).1.getD 4 "" =
      skillRow ("skill" ++ natStr 1) (escape_latex "Reflect on your year*")) :=
  ⟨by decide,
   c3_star_items_script_stripped_assessment_not "Reflect on your year*" "Mentee" 1 (by decide)⟩

set_option maxRecDepth 8000 in
/-- Claim C4, counterexample: the subsection header `Foo*` strips to
`Foo`, which is none of `Mentee`/`Mentor`/`Both`, yet rendering the parse
of `"# T\n## S\n### Foo*\n- X"` emits the action line `\noindent\textit{X}`
for both role values: the `*`-suffix check runs before the role-token
check, so such a subsection is treated as an action block, not a no-op. -/
theorem c4_starred_unknown_header_renders :
    pyRstripStar "Foo*" = "Foo" ∧
    ((scriptLines (parse_markdown "# T\n## S\n### Foo*\n- X") "Mentee").contains
      "\\noindent\\textit\x7bX\x7d") = true ∧
    ((scriptLines (parse_markdown "# T\n## S\n### Foo*\n- X") "Mentor").contains
      "\\noindent\\textit\x7bX\x7d") = true := by
  decide

/-- Claim C4, amended: a subsection whose header strips to none of the
tokens `Mentee`/`Mentor`/`Both` AND does not end in `*` renders nothing
for both role values — no lines, no fields, counter untouched, silently.
(A header ending in `*` is instead classified as an action block.) -/
theorem c4_unrecognized_header_silent_noop
    (role : String) (sub : Subsectn) (c : Nat)
    (h1 : pyRstripStar sub.header ≠ "Mentee")
    (h2 : pyRstripStar sub.header ≠ "Mentor")
    (h3 : pyRstripStar sub.header ≠ "Both")
    (h4 : pyEndsWithStar sub.header = false)
    (hrole : role = "Mentee" ∨ role = "Mentor") :
    scriptSubLines role sub c = ([], c) := by
  have hb : (pyRstripStar sub.header == "Both") = false := beq_eq_false_iff_ne.mpr h3
  have h1' : (pyRstripStar sub.header == "Mentee") = false := beq_eq_false_iff_ne.mpr h1
  have h2' : (pyRstripStar sub.header == "Mentor") = false := beq_eq_false_iff_ne.mpr h2
  have hm : (pyRstripStar sub.header == role) = false := by
    rcases hrole with h | h
    · rw [h]
      exact h1'
    · rw [h]
      exact h2'
  simp only [scriptSubLines, h4, hb, hm, h1', h2', Bool.false_or, Bool.false_and,
    Bool.false_eq_true, if_false]

/-- Witness for the amended claim C4: the unrecognized header `Intro`
renders nothing at counter 7. -/
theorem c4_unrecognized_header_witness :
    scriptSubLines "Mentee" ⟨"Intro", ["X"]⟩ 7 = ([], 7) :=
  c4_unrecognized_header_silent_noop "Mentee" ⟨"Intro", ["X"]⟩ 7
    (by decide) (by decide) (by decide) (by decide) (Or.inl rfl)

/-- Claim C5 (confirmed): for every document and role, one render's
interactive-field names are exactly the consecutive tags
`field1, field2, …` produced by a counter starting at 1, hence pairwise
distinct; since this holds for any call, successive renders for `Mentee`
and `Mentor` each restart at `field1` (`fieldTag 1 = "field1"`). -/
theorem c5_field_identifiers_fresh_and_unique (d : Document) (role : String) :
    ∃ n, scriptFieldNames d role = (List.range' 1 n).map fieldTag ∧
      (scriptFieldNames d role).Nodup ∧ fieldTag 1 = "field1" := by
  obtain ⟨k, hk, hf⟩ := fields_scriptSectionsLines role d.sections 1
  have hEq : scriptFieldNames d role = (List.range' 1 k).map fieldTag := by
    unfold scriptFieldNames scriptLines
    rw [List.filterMap_append, List.filterMap_append, fields_scriptPreamble, hf]
    rw [show (List.filterMap fieldNameOfLine ["\\end\x7bdocument\x7d"]) = [] from by decide]
    simp
  refine ⟨k, hEq, ?_, rfl⟩
  rw [hEq]
  exact List.Nodup.map fieldTag_inj (List.nodup_range' 1 k)

set_option maxRecDepth 8000 in
/-- Claim C6 (confirmed): parsing
`"# Title\n## Sec\n### Mentee\n- Q1\n### Both\n- Q2*\n- Q3\n"` and
rendering with role `Mentee` yields the title line `Title (Mentee)`, and
the section body shows: `Q1` with exactly the one field `field1`; `Q2`
as italic action text with no field; `Q3` with the two fields `field2`
(unlabeled) and `field3` (labeled `Mentor: Q3` in gray); the field names
of the whole render are exactly `field1, field2, field3`. -/
theorem c6_concrete_script_scenario :
    parse_markdown "# Title\n## Sec\n### Mentee\n- Q1\n### Both\n- Q2*\n- Q3\n" =
      ⟨"Title", [⟨"Sec", [⟨"Mentee", ["Q1"]⟩, ⟨"Both", ["Q2*", "Q3"]⟩], []⟩]⟩ ∧
    ((scriptLines (parse_markdown "# Title\n## Sec\n### Mentee\n- Q1\n### Both\n- Q2*\n- Q3\n")
        "Mentee").contains "\x7b\\Large\\bfseries Title (Mentee)\x7d") = true ∧
    scriptSectionsLines "Mentee"
        (parse_markdown "# Title\n## Sec\n### Mentee\n- Q1\n### Both\n- Q2*\n- Q3\n").sections 1 =
      (["\\needspace\x7b6cm\x7d",
        "\\noindent\\textbf\x7b\\large Sec\x7d",
        "",
        "\\vspace\x7b0.3cm\x7d",
        "",
        "\\needspace\x7b4cm\x7d",
        "\\noindent Q1",
        "",
        "\\vspace\x7b0.3em\x7d",
        "\\noindent\\TextField[name=field1,multiline=true,width=\\textwidth,height=2.5cm,bordercolor=\x7b0 0 0\x7d,backgroundcolor=\x7b0.95 0.95 0.95\x7d]\x7b\x7d",
        "",
        "\\vspace\x7b0.4cm\x7d",
        "",
        "\\noindent\\textit\x7bQ2\x7d",
        "",
        "\\vspace\x7b0.3cm\x7d",
        "",
        "\\needspace\x7b4cm\x7d",
        "\\noindent Q3",
        "",
        "\\vspace\x7b0.3em\x7d",
        "\\noindent\\TextField[name=field2,multiline=true,width=\\textwidth,height=2.5cm,bordercolor=\x7b0 0 0\x7d,backgroundcolor=\x7b0.95 0.95 0.95\x7d]\x7b\x7d",
        "",
        "\\vspace\x7b0.2cm\x7d",
        "",
        "\\needspace\x7b4cm\x7d",
        "\\noindent\x7b\\color\x7bgray\x7dMentor: Q3\x7d",
        "",
        "\\vspace\x7b0.3em\x7d",
        "\\noindent\\TextField[name=field3,multiline=true,width=\\textwidth,height=2.5cm,bordercolor=\x7b0 0 0\x7d,backgroundcolor=\x7b0.95 0.95 0.95\x7d]\x7b\x7d",
        "",
        "\\vspace\x7b0.4cm\x7d",
        "",
        "\\vspace\x7b0.3cm\x7d",
        ""], 4) ∧
    scriptFieldNames (parse_markdown "# Title\n## Sec\n### Mentee\n- Q1\n### Both\n- Q2*\n- Q3\n")
        "Mentee" = ["field1", "field2", "field3"] := by
  decide

set_option maxRecDepth 8000 in
/-- Claim C7 (confirmed): the assessment render of
`"# T\n## Skills\n- Communication\n- Writing\n"` has exactly two item
rows; scanning their `\ratingcircle`/`\checkbox` calls (which expand to
the markers named `name=#1_#2` resp. the target argument) yields 5
ability markers, 3 importance markers and 1 target marker per row,
namespaced `skill1`/`skill2` by the counter starting at 1, and the nine
marker names of one row are disjoint from those of the other. -/
theorem c7_concrete_assessment_scenario :
    (skillsRowsOf (parse_markdown "# T\n## Skills\n- Communication\n- Writing\n")).length = 2 ∧
    ((skillsRowsOf (parse_markdown "# T\n## Skills\n- Communication\n- Writing\n")).map
        (fun l => markerScan l.data)) =
      [["skill1_ability_1", "skill1_ability_2", "skill1_ability_3", "skill1_ability_4",
        "skill1_ability_5", "skill1_importance_1", "skill1_importance_2", "skill1_importance_3",
        "skill1_target"],
       ["skill2_ability_1", "skill2_ability_2", "skill2_ability_3", "skill2_ability_4",
        "skill2_ability_5", "skill2_importance_1", "skill2_importance_2", "skill2_importance_3",
        "skill2_target"]] ∧
    (markerScan (((skillsRowsOf
          (parse_markdown "# T\n## Skills\n- Communication\n- Writing\n")).getD 0 "").data)).inter
      (markerScan (((skillsRowsOf
          (parse_markdown "# T\n## Skills\n- Communication\n- Writing\n")).getD 1 "").data)) = [] := by
  decide

/-- Claim C8 (confirmed): the embedded parser is a total function (it
cannot raise); a line matching none of the four prefixes
`"# "`, `"## "`, `"### "`, `"- "` (after rstrip) leaves the parser state
untouched, and an input whose lines match no heading prefix parses to the
document with empty title and empty section list. -/
theorem c8_parser_total_and_ignores_unmatched :
    (∀ (st : ParseState) (l : String), NoPrefixMatch l → parseStep st l = st) ∧
    (∀ content : String, (∀ l ∈ parseLinesOf content, HeadingFree l) →
      parse_markdown content = ⟨"", []⟩) :=
  ⟨parseStep_no_match, parse_markdown_heading_free⟩

/-- Witness for claim C8: the prose line `just some prose` is ignored
from an arbitrary state, and the input `"hello world\n- stray"` (no
heading line) parses to the empty document. -/
theorem c8_witness :
    parseStep ⟨"T", [], some ⟨"S", [], []⟩, none⟩ "just some prose" =
      ⟨"T", [], some ⟨"S", [], []⟩, none⟩ ∧
    parse_markdown "hello world\n- stray" = ⟨"", []⟩ :=
  ⟨c8_parser_total_and_ignores_unmatched.1 _ "just some prose"
      ⟨⟨by decide, by decide, by decide⟩, by decide⟩,
   c8_parser_total_and_ignores_unmatched.2 "hello world\n- stray" (by
      intro l hl
      fin_cases hl <;> exact ⟨by decide, by decide, by decide⟩)⟩

/-- Claim C9 (confirmed): the emitted `\checkbox` macro ignores its name
argument and expands to a static tikz circle containing no `\CheckBox`
form field and no `name=` binder, so the identifier passed as
`skill<N>_target` in each row is never bound to an interactive field;
`\ratingcircle{a}{b}` by contrast expands to a `\CheckBox` form field
named `a_b`, giving the `skill<N>_ability_<k>` and
`skill<N>_importance_<k>` fields; the generated row for counter `c`
invokes exactly these macros, ending with
`\checkbox{skill<c>_target}`. -/
theorem c9_target_marker_not_interactive :
    (∀ s t : String, checkbox s = checkbox t) ∧
    (∀ s : String, strHasSub "\\CheckBox" (checkbox s) = false ∧
      strHasSub "name=" (checkbox s) = false) ∧
    (∀ a b : String, ratingcircle a b =
      "\\raisebox\x7b-0ex\x7d\x7b\\CheckBox[name=" ++ a ++ "_" ++ b ++
        ",width=1.2ex,height=1.2ex,bordercolor=\x7b0 0 0\x7d,borderstyle=S,borderwidth=1]\x7b\x7d\x7d") ∧
    (∀ name text : String, skillRow name text =
      text ++ " & " ++
      "\\begin\x7btabular*\x7d\x7b2.4cm\x7d\x7b@\x7b\x7dc@\x7b\\extracolsep\x7b\\fill\x7d\x7dc@\x7b\\extracolsep\x7b\\fill\x7d\x7dc@\x7b\\extracolsep\x7b\\fill\x7d\x7dc@\x7b\\extracolsep\x7b\\fill\x7d\x7dc@\x7b\x7d\x7d" ++
      "\\ratingcircle\x7b" ++ name ++ "_ability\x7d\x7b1\x7d & " ++
      "\\ratingcircle\x7b" ++ name ++ "_ability\x7d\x7b2\x7d & " ++
      "\\ratingcircle\x7b" ++ name ++ "_ability\x7d\x7b3\x7d & " ++
      "\\ratingcircle\x7b" ++ name ++ "_ability\x7d\x7b4\x7d & " ++
      "\\ratingcircle\x7b" ++ name ++ "_ability\x7d\x7b5\x7d" ++
      "\\end\x7btabular*\x7d & " ++
      "\\begin\x7btabular*\x7d\x7b1.3cm\x7d\x7b@\x7b\x7dc@\x7b\\extracolsep\x7b\\fill\x7d\x7dc@\x7b\\extracolsep\x7b\\fill\x7d\x7dc@\x7b\x7d\x7d" ++
      "\\ratingcircle\x7b" ++ name ++ "_importance\x7d\x7b1\x7d & " ++
      "\\ratingcircle\x7b" ++ name ++ "_importance\x7d\x7b2\x7d & " ++
      "\\ratingcircle\x7b" ++ name ++ "_importance\x7d\x7b3\x7d" ++
      "\\end\x7btabular*\x7d & " ++
      "\\checkbox\x7b" ++ name ++ "_target\x7d") ∧
    (∀ (item : String) (c : Nat), (skillsItemLines item c).1.getD 4 "" =
      skillRow ("skill" ++ natStr c) (escape_latex item) ∧
      (skillsItemLines item c).2 = c + 1) := by
  refine ⟨fun s t => rfl, fun s => ?_, fun a b => rfl, fun name text => rfl,
    fun item c => ⟨rfl, rfl⟩⟩
  rw [show checkbox s = checkbox "" from rfl]
  exact ⟨by decide, by decide⟩

/-- Claim C10 (confirmed): a `"# "` line updates only the title — the
accumulated sections and the open section/subsection are untouched — so a
bullet following it attaches exactly as it would have without the title
line; and no line other than a `"## "` line flushes: any non-`"## "`
step leaves the accumulated section list unchanged and keeps the open
section open. -/
theorem c10_title_line_does_not_flush :
    (∀ (st : ParseState) (l : String), strStarts "# " (pyRstrip l) = true →
      parseStep st l = { st with title := pyStrip (strDrop 2 (pyRstrip l)) }) ∧
    (∀ (st : ParseState) (h b : String), strStarts "# " (pyRstrip h) = true →
      strStarts "- " (pyRstrip b) = true →
      parseStep (parseStep st h) b =
        { parseStep st b with title := pyStrip (strDrop 2 (pyRstrip h)) }) ∧
    (∀ (st : ParseState) (l : String), strStarts "## " (pyRstrip l) = false →
      (parseStep st l).sections = st.sections ∧
        (parseStep st l).curSection.isSome = st.curSection.isSome) :=
  ⟨parseStep_h1, parseStep_bullet_after_h1, parseStep_sections_stable⟩

/-- Witness for claim C10: with section `S` and subsection `Mentee` open,
the line `# New` only retitles, and the following bullet `- Q` still
attaches to the open subsection. -/
theorem c10_witness :
    parseStep ⟨"Old", [], some ⟨"S", [], []⟩, some ⟨"Mentee", []⟩⟩ "# New" =
      { (⟨"Old", [], some ⟨"S", [], []⟩, some ⟨"Mentee", []⟩⟩ : ParseState) with
        title := pyStrip (strDrop 2 (pyRstrip "# New")) } ∧
    parseStep (parseStep ⟨"Old", [], some ⟨"S", [], []⟩, some ⟨"Mentee", []⟩⟩ "# New") "- Q" =
      { parseStep ⟨"Old", [], some ⟨"S", [], []⟩, some ⟨"Mentee", []⟩⟩ "- Q" with
        title := pyStrip (strDrop 2 (pyRstrip "# New")) } ∧
    ((parseStep ⟨"Old", [], some ⟨"S", [], []⟩, some ⟨"Mentee", []⟩⟩ "### Foo").sections =
        (⟨"Old", [], some ⟨"S", [], []⟩, some ⟨"Mentee", []⟩⟩ : ParseState).sections ∧
      (parseStep ⟨"Old", [], some ⟨"S", [], []⟩, some ⟨"Mentee", []⟩⟩ "### Foo").curSection.isSome =
        (⟨"Old", [], some ⟨"S", [], []⟩, some ⟨"Mentee", []⟩⟩ : ParseState).curSection.isSome) :=
  ⟨c10_title_line_does_not_flush.1 _ "# New" (by decide),
   c10_title_line_does_not_flush.2.1 _ "# New" "- Q" (by decide) (by decide),
   c10_title_line_does_not_flush.2.2 _ "### Foo" (by decide)⟩

end Endoy
